import Mathlib

/-!
Verification of the Corrective-RAG retrieval core of this repository.

The embedded code:
* `src/src/queryAnalyzer.js` — `QueryAnalyzer.quickAnalysis`,
  `QueryAnalyzer.evaluateRetrievalQuality`, `QueryAnalyzer.analyze`;
* the Retriever module — `Retriever.searchSimilarDocuments`,
  `Retriever.retrieveContext`;
* the WebSearcher module — `WebSearcher.performSearch`,
  `WebSearcher.getKnowledgeGraph`, `WebSearcher.getFeaturedSnippet`,
  `WebSearcher.comprehensiveSearch`, `WebSearcher.getSearchContext`.

External collaborators (the OpenAI embedding / chat endpoints, the LanceDB
vector index, the googlethis search engine) perform I/O; they are modelled as
explicit oracle arguments of type `... → Except String ...`: an `Except.error`
models the JavaScript call throwing (rejecting), an `Except.ok` models its
returned value.  JavaScript `undefined`/`null` string fields are modelled as
`Option String`; JavaScript truthiness of such a field (`if (x)`, `x || y`)
is `Option`-`some` of a non-empty string.  Numeric vector components and
similarity distances are never computed on by the embedded code (they are only
passed through and logged), so they are modelled as opaque `Int`s.
-/

namespace CRag

/-- A retrieved chunk as stored in / returned by the vector index
(fields that the embedded code reads: `text`, `_distance`; `text` can be
absent, which the source guards with `chunk.text?.length || 0`). -/
structure Chunk where
  text : Option String
  distance : Int
  deriving Repr, DecidableEq

/-- The analysis verdict object produced by `QueryAnalyzer`
(`relevance_score`, `is_sufficient`, `requires_web_search`, `reasoning`,
`suggested_search_query`), exactly the JSON shape used in
`src/src/queryAnalyzer.js`. -/
structure QualityVerdict where
  relevance_score : Int
  is_sufficient : Bool
  requires_web_search : Bool
  reasoning : String
  suggested_search_query : Option String
  deriving Repr, DecidableEq

/-- JavaScript `String.prototype.includes`: substring containment. -/
def strIncludes (s pat : String) : Bool :=
  decide (pat.toList <:+: s.toList)

/-- JavaScript truthiness of an optional string field: `undefined`, `null`
and the empty string are falsy. -/
def optTruthy : Option String → Bool
  | none => false
  | some s => !s.isEmpty

/-- `chunk.text?.length || 0` from `quickAnalysis`. -/
def chunkTextLength (c : Chunk) : Nat :=
  match c.text with
  | none => 0
  | some t => t.length

/-- The `webIndicators` keyword list of `QueryAnalyzer.quickAnalysis`
(`src/src/queryAnalyzer.js` lines 121-138). -/
def webIndicators : List String :=
  ["latest", "recent", "current", "today", "now", "new", "news",
   "update", "trend", "price", "stock", "weather", "2024", "2025",
   "this year", "this month"]

/-- `QueryAnalyzer.quickAnalysis` (`src/src/queryAnalyzer.js` lines 117-162):
the deterministic heuristic strategy. -/
def quickAnalysis (query : String) (retrievedChunks : List Chunk) : QualityVerdict :=
  let queryLower := query.toLower
  let needsWebInfo := webIndicators.any (fun indicator => strIncludes queryLower indicator)
  let totalLength := retrievedChunks.foldl (fun sum chunk => sum + chunkTextLength chunk) 0
  let requiresWeb := needsWebInfo || decide (totalLength < 100)
  { relevance_score := if requiresWeb then 4 else 7
    is_sufficient := !requiresWeb
    requires_web_search := requiresWeb
    reasoning := if requiresWeb then
        "Query appears to need current information or retrieved content is insufficient"
      else "Retrieved documents should be sufficient"
    suggested_search_query := if requiresWeb then some query else none }

/-- The safe default verdict returned by the `catch` branch of
`evaluateRetrievalQuality` (`src/src/queryAnalyzer.js` lines 103-109). -/
def analysisFailedVerdict : QualityVerdict :=
  { relevance_score := 5
    is_sufficient := true
    requires_web_search := false
    reasoning := "Analysis failed, using retrieved documents only"
    suggested_search_query := none }

/-- The fenced-code-block extraction of `evaluateRetrievalQuality`
(lines 78-81): the regex match takes the text between the first and the
second occurrence of three backticks, dropping an optional leading
literal `json` (trailing/leading whitespace of the captured group is
removed by the `.trim()` applied before `JSON.parse` anyway).
When there is no closing fence the content is left unchanged. -/
def extractFenced (content : String) : String :=
  match content.splitOn "```" with
  | _ :: inner :: _ :: _ =>
      if inner.startsWith "json" then inner.drop 4 else inner
  | _ => content

/-- `QueryAnalyzer.evaluateRetrievalQuality` (`src/src/queryAnalyzer.js`
lines 22-111), the LLM-based strategy.  The chat-completion call is the
oracle value `llmOutcome` (the prompt built on lines 28-57 only feeds the
external model); `jsonParse` is the `JSON.parse` runtime call on the
extracted, trimmed completion text.  Any failure of either lands in the
`catch` branch, which returns `analysisFailedVerdict`. -/
def evaluateRetrievalQuality (llmOutcome : Except String String)
    (jsonParse : String → Except String QualityVerdict) : QualityVerdict :=
  match llmOutcome with
  | .error _ => analysisFailedVerdict
  | .ok content =>
      match jsonParse (extractFenced content).trim with
      | .error _ => analysisFailedVerdict
      | .ok analysis => analysis

/-- `QueryAnalyzer.analyze` (`src/src/queryAnalyzer.js` lines 167-173):
strategy dispatch. -/
def analyze (useQuickAnalysis : Bool) (query : String) (retrievedChunks : List Chunk)
    (llmOutcome : Except String String)
    (jsonParse : String → Except String QualityVerdict) : QualityVerdict :=
  if useQuickAnalysis then quickAnalysis query retrievedChunks
  else evaluateRetrievalQuality llmOutcome jsonParse

/-! ## WebSearcher (the web search module) -/

/-- A raw organic result of the external `googlethis` `search` call
(string fields may be absent — the source guards each with `|| ''`). -/
structure RawSearchResult where
  title : Option String
  url : Option String
  description : Option String
  deriving Repr, DecidableEq

/-- The `knowledge_panel` object of a `googlethis` response.  `info` is an
arbitrary object; the embedded code only ever renders it through
`JSON.stringify(kg.info, null, 2)`, so it is modelled by that rendering
(an object is always truthy, hence the `isSome` test below, not string
truthiness). -/
structure KnowledgePanel where
  title : Option String
  type : Option String
  description : Option String
  info : Option String
  deriving Repr, DecidableEq

/-- The `featured_snippet` object of a `googlethis` response. -/
structure FeaturedSnippet where
  title : Option String
  description : Option String
  url : Option String
  deriving Repr, DecidableEq

/-- A full `googlethis` response. -/
structure SearchResponse where
  results : List RawSearchResult
  knowledge_panel : Option KnowledgePanel
  featured_snippet : Option FeaturedSnippet
  deriving Repr, DecidableEq

/-- The external search engine: one oracle per query string; `Except.error`
models the promise rejecting.  `performSearch`, `getKnowledgeGraph` and
`getFeaturedSnippet` each re-issue `search(query, options)` with identical
options, so they consult the same oracle. -/
abbrev WebSearchOracle := String → Except String SearchResponse

/-- The mapped result shape built by `WebSearcher.performSearch`
(title/link/description/snippet/source, each string field defaulted with
`|| ''`). -/
structure WebResult where
  title : String
  link : String
  description : String
  snippet : String
  source : String
  deriving Repr, DecidableEq, Inhabited

/-- `WebSearcher.performSearch` (web search module lines 17-66): slices the
organic results to `numResults`, maps them to `WebResult`s, and returns `[]`
on any error (the `catch` branch). -/
def performSearch (webSearch : WebSearchOracle) (query : String)
    (numResults : Nat) : List WebResult :=
  match webSearch query with
  | .error _ => []
  | .ok response =>
      (response.results.take numResults).map (fun result =>
        { title := result.title.getD ""
          link := result.url.getD ""
          description := result.description.getD ""
          snippet := result.description.getD ""
          source := "google" })

/-- `WebSearcher.getKnowledgeGraph` (lines 71-115): renders the knowledge
panel as a `Title:`/`Type:`/`Description:`/`Info:` text, `none` when the
panel is absent or the call fails. -/
def getKnowledgeGraph (webSearch : WebSearchOracle) (query : String) :
    Option String :=
  match webSearch query with
  | .error _ => none
  | .ok response =>
      match response.knowledge_panel with
      | none => none
      | some kg =>
          some ((if optTruthy kg.title then "Title: " ++ kg.title.getD "" ++ "\n" else "")
            ++ (if optTruthy kg.type then "Type: " ++ kg.type.getD "" ++ "\n" else "")
            ++ (if optTruthy kg.description then
                  "Description: " ++ kg.description.getD "" ++ "\n" else "")
            ++ (if kg.info.isSome then "Info: " ++ kg.info.getD "" ++ "\n" else ""))

/-- `WebSearcher.getFeaturedSnippet` (lines 120-160): renders the featured
snippet as a `Title:`/`Content:`/`Source:` text, `none` when absent or on
failure. -/
def getFeaturedSnippet (webSearch : WebSearchOracle) (query : String) :
    Option String :=
  match webSearch query with
  | .error _ => none
  | .ok response =>
      match response.featured_snippet with
      | none => none
      | some snippet =>
          some ((if optTruthy snippet.title then "Title: " ++ snippet.title.getD "" ++ "\n" else "")
            ++ (if optTruthy snippet.description then
                  "Content: " ++ snippet.description.getD "" ++ "\n" else "")
            ++ (if optTruthy snippet.url then "Source: " ++ snippet.url.getD "" ++ "\n" else ""))

/-- `WebSearcher.comprehensiveSearch` (lines 165-175). -/
def comprehensiveSearch (webSearch : WebSearchOracle) (query : String)
    (numResults : Nat) : List WebResult × Option String × Option String :=
  (performSearch webSearch query numResults,
   getKnowledgeGraph webSearch query,
   getFeaturedSnippet webSearch query)

/-- The indexed formatter of `getSearchContext`
(`results.map((result, idx) => ...)`, lines 199-204): element at index
`idx` becomes `[Web Source idx+1: title] / URL: link / Content:
description`. -/
def webFormatParts : Nat → List WebResult → List String
  | _, [] => []
  | idx, result :: rest =>
      ("[Web Source " ++ toString (idx + 1) ++ ": " ++ result.title
        ++ "]\nURL: " ++ result.link ++ "\nContent: " ++ result.description)
        :: webFormatParts (idx + 1) rest

/-- `WebSearcher.getSearchContext` (lines 180-210): featured-snippet
section (when truthy), then knowledge-graph section (when truthy), then
the numbered search results joined with the separator. -/
def getSearchContext (webSearch : WebSearchOracle) (query : String)
    (numResults : Nat) : String :=
  let c := comprehensiveSearch webSearch query numResults
  let results := c.1
  let knowledgeGraph := c.2.1
  let featuredSnippet := c.2.2
  let context := ""
  let context := if optTruthy featuredSnippet then
      context ++ "=== FEATURED SNIPPET ===\n" ++ featuredSnippet.getD "" ++ "\n\n"
    else context
  let context := if optTruthy knowledgeGraph then
      context ++ "=== KNOWLEDGE GRAPH ===\n" ++ knowledgeGraph.getD "" ++ "\n\n"
    else context
  let context := if 0 < results.length then
      context ++ "=== SEARCH RESULTS ===\n\n"
        ++ String.intercalate "\n\n---\n\n" (webFormatParts 0 results)
    else context
  context

/-! ## Retriever (the corrective retrieval module) -/

/-- The embedding-service oracle (`openai.embeddings.create`): a numeric
vector or a thrown error. -/
abbrev EmbedOracle := String → Except String (List Int)

/-- The vector-index oracle (`table.search(queryEmbedding).limit(topK)
.toArray()` after `lancedb.connect`/`openTable`): given the query vector
and `topK`, the ordered result list, or a thrown error (connection,
missing table or search failure). -/
abbrev IndexOracle := List Int → Nat → Except String (List Chunk)

/-- `Retriever.generateQueryEmbedding` (retrieval module lines 32-44):
delegates to the embedding service and rethrows its error. -/
def generateQueryEmbedding (embed : EmbedOracle) (query : String) :
    Except String (List Int) :=
  match embed query with
  | .error e => .error e
  | .ok v => .ok v

/-- `Retriever.searchSimilarDocuments` (lines 49-88): embeds the query,
searches the index, returns the results; every failure is rethrown
(lines 84-87). -/
def searchSimilarDocuments (embed : EmbedOracle) (tableSearch : IndexOracle)
    (query : String) (topK : Nat) : Except String (List Chunk) :=
  match generateQueryEmbedding embed query with
  | .error e => .error e
  | .ok queryEmbedding =>
      match tableSearch queryEmbedding topK with
      | .error e => .error e
      | .ok results => .ok results

/-- The `webResults` record built in `retrieveContext`
(`{ searchQuery, context: webContext }`). -/
structure WebResults where
  searchQuery : String
  context : String
  deriving Repr, DecidableEq

/-- The object returned by `retrieveContext`.  In the CRAG-disabled branch
the source object carries only `context`, `chunks`, `webResults: null`,
`analysis: null`; the absent fields are `none` here. -/
structure RetrieveResult where
  context : String
  localContext : Option String
  webContext : Option String
  chunks : List Chunk
  webResults : Option WebResults
  analysis : Option QualityVerdict
  deriving Repr, DecidableEq

/-- `Retriever.retrieveContext` (lines 98-151): local retrieval (errors
propagate), then — when corrective RAG is enabled — analysis, an
unconditional web search on `analysis.suggested_search_query || query`,
and fusion of the two context sections. -/
def retrieveContext (enableCorrectiveRAG useQuickAnalysis : Bool)
    (embed : EmbedOracle) (tableSearch : IndexOracle)
    (llmOutcome : Except String String)
    (jsonParse : String → Except String QualityVerdict)
    (webSearch : WebSearchOracle)
    (query : String) (topK : Nat) : Except String RetrieveResult :=
  match searchSimilarDocuments embed tableSearch query topK with
  | .error e => .error e
  | .ok localResults =>
      let localContext := String.intercalate "\n\n"
        (localResults.map (fun result => result.text.getD ""))
      if !enableCorrectiveRAG then
        .ok { context := localContext, localContext := none, webContext := none
              chunks := localResults, webResults := none, analysis := none }
      else
        let analysis := analyze useQuickAnalysis query localResults llmOutcome jsonParse
        let searchQuery := if optTruthy analysis.suggested_search_query then
            analysis.suggested_search_query.getD "" else query
        let webContext := getSearchContext webSearch searchQuery 3
        let webResults : WebResults := { searchQuery := searchQuery, context := webContext }
        let combinedContext := "=== LOCAL DOCUMENT CONTEXT ===\n\n" ++ localContext
          ++ "\n\n=== WEB SEARCH CONTEXT (Additional Information) ===\n\n" ++ webContext
        .ok { context := combinedContext, localContext := some localContext
              webContext := some webContext, chunks := localResults
              webResults := some webResults, analysis := some analysis }

/-! ## Spec-side characterisations (written from the specification text,
to be compared with the definitions above) -/

/-- Spec: `containsAnyKeyword(query, webIndicatorTerms)` — case handled by
passing the lowercased query. -/
def containsAnyKeyword (s : String) (keywords : List String) : Bool :=
  keywords.any (fun k => strIncludes s k)

/-- Spec: the total length of the `text` fields of the retrieved chunks. -/
def totalRetrievedTextLength (chunks : List Chunk) : Nat :=
  (chunks.map chunkTextLength).sum

/-- Spec: `requiresWeb = containsAnyKeyword(lowercased query,
webIndicatorTerms) OR totalRetrievedTextLength < 100`. -/
def requiresWebSpec (query : String) (chunks : List Chunk) : Bool :=
  containsAnyKeyword query.toLower webIndicators
    || decide (totalRetrievedTextLength chunks < 100)

lemma foldl_chunkTextLength (cs : List Chunk) : ∀ n : Nat,
    cs.foldl (fun sum chunk => sum + chunkTextLength chunk) n
      = n + totalRetrievedTextLength cs := by
  induction cs with
  | nil => intro n; simp [totalRetrievedTextLength]
  | cons c rest ih =>
      intro n
      simp only [List.foldl_cons, totalRetrievedTextLength, List.map_cons,
        List.sum_cons] at *
      rw [ih]; omega

/-- The local context section: chunk texts joined with blank-line
separators, in retrieval order (line 101 of the retrieval module). -/
def localJoin (chunks : List Chunk) : String :=
  String.intercalate "\n\n" (chunks.map (fun result => result.text.getD ""))

/-- The web search query chosen by `retrieveContext`
(`analysis.suggested_search_query || query`, line 128). -/
def chosenSearchQuery (analysis : QualityVerdict) (query : String) : String :=
  if optTruthy analysis.suggested_search_query then
    analysis.suggested_search_query.getD ""
  else query

/-- Spec-side search-query policy: the suggested query when present and
non-empty, otherwise (absent, null or empty) the original query. -/
def searchQuerySpec (verdict : QualityVerdict) (query : String) : String :=
  match verdict.suggested_search_query with
  | some s => if s = "" then query else s
  | none => query

/-- Spec-side formatting of the numbered web result at 0-based index
`idx`: `[Web Source idx+1: title] / URL: link / Content: description`. -/
def webSourceLine (idx : Nat) (result : WebResult) : String :=
  "[Web Source " ++ toString (idx + 1) ++ ": " ++ result.title
    ++ "]\nURL: " ++ result.link ++ "\nContent: " ++ result.description

/-- Non-decreasing distance order, closest first. -/
def sortedByDistance (l : List Chunk) : Prop :=
  l.Chain' (fun a b => a.distance ≤ b.distance)

/-- The ordered-search contract of the external vector index holding `index`:
a successful search for `k` results returns exactly `min k N` chunks of the
index, sorted by non-decreasing distance. -/
def indexContract (index : List Chunk) (tableSearch : IndexOracle) : Prop :=
  ∀ v k res, tableSearch v k = .ok res →
    res.length = min k index.length ∧ sortedByDistance res ∧ ∀ c ∈ res, c ∈ index

/-! Concrete sample collaborators used by the witnesses. -/

def sampleChunk : Chunk :=
  ⟨some "A sample chunk of local evidence text, comfortably over the length threshold used by the heuristic.", 1⟩

def sampleEmbed : EmbedOracle := fun _ => .ok [1, 2, 3]

def sampleIndex : IndexOracle := fun _ k => .ok ([sampleChunk].take k)

def sampleWeb : WebSearchOracle := fun _ =>
  .ok ⟨[⟨some "Result title", some "https://example.org", some "Result snippet"⟩], none, none⟩

/-- A verdict that does not request web search (`requires_web_search =
false`) and carries no suggested query. -/
def sampleNoWebVerdict : QualityVerdict :=
  ⟨7, true, false, "Retrieved documents should be sufficient", none⟩

/-! Helper lemmas. -/

lemma append_congr_merge (a b c A : String) (h : a ++ b ++ c = A) (x : String) :
    a ++ (b ++ (c ++ x)) = A ++ x := by
  rw [← h, String.append_assoc, String.append_assoc]

/-- `retrieveContext` in the CRAG-enabled mode, on successful local
retrieval: the explicit result record. -/
lemma retrieveContext_enabled_eq (useQ : Bool) (embed : EmbedOracle)
    (tbl : IndexOracle) (llm : Except String String)
    (jp : String → Except String QualityVerdict) (web : WebSearchOracle)
    (query : String) (topK : Nat) (chunks : List Chunk)
    (h : searchSimilarDocuments embed tbl query topK = .ok chunks) :
    retrieveContext true useQ embed tbl llm jp web query topK =
      .ok { context := "=== LOCAL DOCUMENT CONTEXT ===\n\n" ++ localJoin chunks
              ++ "\n\n=== WEB SEARCH CONTEXT (Additional Information) ===\n\n"
              ++ getSearchContext web
                  (chosenSearchQuery (analyze useQ query chunks llm jp) query) 3
            localContext := some (localJoin chunks)
            webContext := some (getSearchContext web
              (chosenSearchQuery (analyze useQ query chunks llm jp) query) 3)
            chunks := chunks
            webResults := some ⟨chosenSearchQuery (analyze useQ query chunks llm jp) query,
              getSearchContext web
                (chosenSearchQuery (analyze useQ query chunks llm jp) query) 3⟩
            analysis := some (analyze useQ query chunks llm jp) } := by
  simp only [retrieveContext, h, localJoin, chosenSearchQuery, Bool.not_true,
    Bool.false_eq_true, if_false, ite_false]

/-- `retrieveContext` with corrective RAG disabled, on successful local
retrieval: local results only. -/
lemma retrieveContext_disabled_eq (useQ : Bool) (embed : EmbedOracle)
    (tbl : IndexOracle) (llm : Except String String)
    (jp : String → Except String QualityVerdict) (web : WebSearchOracle)
    (query : String) (topK : Nat) (chunks : List Chunk)
    (h : searchSimilarDocuments embed tbl query topK = .ok chunks) :
    retrieveContext false useQ embed tbl llm jp web query topK =
      .ok { context := localJoin chunks, localContext := none, webContext := none
            chunks := chunks, webResults := none, analysis := none } := by
  simp [retrieveContext, h, localJoin]

/-- A web search oracle that always throws yields the empty web section. -/
lemma getSearchContext_error (e : String) (query : String) (n : Nat) :
    getSearchContext (fun _ => .error e) query n = "" := rfl

/-- The chosen search query satisfies the truthiness-based policy. -/
lemma chosenSearchQuery_eq_spec (verdict : QualityVerdict) (query : String) :
    chosenSearchQuery verdict query = searchQuerySpec verdict query := by
  unfold chosenSearchQuery searchQuerySpec optTruthy
  match verdict.suggested_search_query with
  | none => rfl
  | some s =>
      by_cases hs : s = "" <;>
        simp [hs, Option.getD, String.isEmpty_iff]

/-- The indexed web-result formatter produces, at list position `i`, the
line numbered `s + i + 1` formatted from the `i`-th result. -/
lemma webFormatParts_eq (l : List WebResult) : ∀ s : Nat,
    webFormatParts s l
      = (List.range l.length).map (fun i => webSourceLine (s + i) (l.getD i default)) := by
  induction l with
  | nil => intro s; simp [webFormatParts]
  | cons r rest ih =>
      intro s
      simp only [webFormatParts, List.length_cons, List.range_succ_eq_map,
        List.map_cons, List.map_map, Nat.add_zero, List.getD_cons_zero]
      congr 1
      rw [ih (s + 1)]
      refine List.map_congr_left ?_
      intro i _
      have hadd : s + 1 + i = s + (i + 1) := by omega
      simp [Function.comp, Nat.succ_eq_add_one, List.getD_cons_succ, hadd]

/-! ## Claims -/

/-- C1: for every query string and every list of chunks, `quickAnalysis`
returns a verdict with `requires_web_search = (the lowercased query contains
a web-indicator keyword) OR (total chunk text length < 100)`,
`relevance_score = 4` if web is required else `7`, `is_sufficient` its
negation, and `suggested_search_query` the original query when web is
required, else null. -/
theorem quickAnalysis_matches_spec (query : String) (chunks : List Chunk) :
    (quickAnalysis query chunks).requires_web_search = requiresWebSpec query chunks
    ∧ (quickAnalysis query chunks).relevance_score
        = (if requiresWebSpec query chunks then 4 else 7)
    ∧ (quickAnalysis query chunks).is_sufficient = !(requiresWebSpec query chunks)
    ∧ (quickAnalysis query chunks).suggested_search_query
        = (if requiresWebSpec query chunks then some query else none) := by
  simp only [quickAnalysis, requiresWebSpec, containsAnyKeyword,
    foldl_chunkTextLength, Nat.zero_add]
  refine ⟨?_, ?_, ?_, ?_⟩ <;> trivial

/-- C9: the heuristic strategy is deterministic — two invocations of
`quickAnalysis` on the same query and chunk list yield equal verdicts
(it is modelled as a pure function: no randomness, no network oracle
among its arguments). -/
theorem quickAnalysis_deterministic (query : String) (chunks : List Chunk)
    (v₁ v₂ : QualityVerdict)
    (h₁ : v₁ = quickAnalysis query chunks)
    (h₂ : v₂ = quickAnalysis query chunks) : v₁ = v₂ :=
  h₁.trans h₂.symm

/-- Witness for C9 at a concrete query and chunk list. -/
theorem quickAnalysis_deterministic_witness :
    quickAnalysis "What are the latest AI trends in 2025?" [⟨some "alpha", 1⟩]
      = quickAnalysis "What are the latest AI trends in 2025?" [⟨some "alpha", 1⟩] :=
  quickAnalysis_deterministic "What are the latest AI trends in 2025?"
    [⟨some "alpha", 1⟩] _ _ rfl rfl

/-- C3: whenever the LLM completion call fails, or its output cannot be
parsed as JSON, `evaluateRetrievalQuality` returns exactly the safe default
verdict (`relevance_score = 5`, `is_sufficient = true`,
`requires_web_search = false`, `suggested_search_query = null`) — it is a
total function, it never throws. -/
theorem evaluateRetrievalQuality_safe_default
    (llmOutcome : Except String String)
    (jsonParse : String → Except String QualityVerdict) :
    (∀ e, llmOutcome = .error e →
      evaluateRetrievalQuality llmOutcome jsonParse = analysisFailedVerdict)
    ∧ (∀ content e, llmOutcome = .ok content →
        jsonParse (extractFenced content).trim = .error e →
        evaluateRetrievalQuality llmOutcome jsonParse = analysisFailedVerdict)
    ∧ analysisFailedVerdict.relevance_score = 5
    ∧ analysisFailedVerdict.is_sufficient = true
    ∧ analysisFailedVerdict.requires_web_search = false
    ∧ analysisFailedVerdict.suggested_search_query = none := by
  refine ⟨?_, ?_, rfl, rfl, rfl, rfl⟩
  · intro e he; rw [he]; rfl
  · intro content e hok hparse
    rw [hok]; simp only [evaluateRetrievalQuality, hparse]

/-- Witness for C3: the completion `"I cannot help"` (no JSON) with a
parser that rejects it yields the safe default verdict. -/
theorem evaluateRetrievalQuality_safe_default_witness :
    evaluateRetrievalQuality (.ok "I cannot help")
      (fun _ => .error "Unexpected token") = analysisFailedVerdict :=
  (evaluateRetrievalQuality_safe_default (.ok "I cannot help")
      (fun _ => .error "Unexpected token")).2.1
    "I cannot help" "Unexpected token" rfl rfl

/-- The search query recorded in the `webResults` field of a retrieval
outcome (the query that was handed to the web search). -/
def resultSearchQuery : Except String RetrieveResult → Option String
  | .ok r => r.webResults.map (fun w => w.searchQuery)
  | .error _ => none

/-- A verdict whose `suggested_search_query` is present but empty. -/
def emptySuggestVerdict : QualityVerdict :=
  ⟨4, false, true, "needs web", some ""⟩

/-- C2: with corrective RAG enabled, for every query, local chunk list and
analyzer verdict (the oracles range over all verdicts, including
`requires_web_search = false`), `retrieveContext` performs the web search —
the fused result records the web query and the web context — and the
combined context contains `LOCAL DOCUMENT CONTEXT` followed later by
`WEB SEARCH CONTEXT`, in that order. -/
theorem retrieveContext_always_fuses (useQ : Bool) (embed : EmbedOracle)
    (tbl : IndexOracle) (llm : Except String String)
    (jp : String → Except String QualityVerdict) (web : WebSearchOracle)
    (query : String) (topK : Nat) (chunks : List Chunk)
    (h : searchSimilarDocuments embed tbl query topK = .ok chunks) :
    ∃ r, retrieveContext true useQ embed tbl llm jp web query topK = .ok r
      ∧ r.webResults = some ⟨chosenSearchQuery (analyze useQ query chunks llm jp) query,
          getSearchContext web (chosenSearchQuery (analyze useQ query chunks llm jp) query) 3⟩
      ∧ ∃ s₁ s₂ s₃, r.context
          = s₁ ++ "LOCAL DOCUMENT CONTEXT" ++ s₂ ++ "WEB SEARCH CONTEXT" ++ s₃ := by
  refine ⟨_, retrieveContext_enabled_eq useQ embed tbl llm jp web query topK chunks h, rfl,
    "=== ", " ===\n\n" ++ localJoin chunks ++ "\n\n=== ",
    " (Additional Information) ===\n\n"
      ++ getSearchContext web (chosenSearchQuery (analyze useQ query chunks llm jp) query) 3, ?_⟩
  dsimp only
  simp only [String.append_assoc]
  rw [append_congr_merge "=== " "LOCAL DOCUMENT CONTEXT" " ===\n\n"
      "=== LOCAL DOCUMENT CONTEXT ===\n\n" rfl,
    append_congr_merge "\n\n=== " "WEB SEARCH CONTEXT"
      " (Additional Information) ===\n\n"
      "\n\n=== WEB SEARCH CONTEXT (Additional Information) ===\n\n" rfl]

/-- Witness for C2: a verdict with `requires_web_search = false` still
produces a fused two-section context. -/
theorem retrieveContext_always_fuses_witness :
    ∃ r, retrieveContext true false sampleEmbed sampleIndex (.ok "irrelevant")
        (fun _ => .ok sampleNoWebVerdict) sampleWeb "q" 3 = .ok r
      ∧ r.webResults = some ⟨"q", getSearchContext sampleWeb "q" 3⟩
      ∧ ∃ s₁ s₂ s₃, r.context
          = s₁ ++ "LOCAL DOCUMENT CONTEXT" ++ s₂ ++ "WEB SEARCH CONTEXT" ++ s₃ :=
  retrieveContext_always_fuses false sampleEmbed sampleIndex (.ok "irrelevant")
    (fun _ => .ok sampleNoWebVerdict) sampleWeb "q" 3 [sampleChunk] rfl

/-- C4: if the web search collaborator raises an error, fusion still
returns a result: the web section is the empty string and the local
section is identical to the one produced with any succeeding (or any
other) web collaborator. -/
theorem webFailure_degrades (useQ : Bool) (embed : EmbedOracle)
    (tbl : IndexOracle) (llm : Except String String)
    (jp : String → Except String QualityVerdict) (webOk : WebSearchOracle)
    (e : String) (query : String) (topK : Nat) (chunks : List Chunk)
    (h : searchSimilarDocuments embed tbl query topK = .ok chunks) :
    ∃ rFail rOk,
      retrieveContext true useQ embed tbl llm jp (fun _ => .error e) query topK = .ok rFail
      ∧ retrieveContext true useQ embed tbl llm jp webOk query topK = .ok rOk
      ∧ rFail.webContext = some ""
      ∧ rFail.localContext = rOk.localContext
      ∧ rFail.localContext = some (localJoin chunks) :=
  ⟨_, _, retrieveContext_enabled_eq useQ embed tbl llm jp (fun _ => .error e) query topK chunks h,
    retrieveContext_enabled_eq useQ embed tbl llm jp webOk query topK chunks h,
    rfl, rfl, rfl⟩

/-- Witness for C4 at concrete collaborators. -/
theorem webFailure_degrades_witness :
    ∃ rFail rOk,
      retrieveContext true false sampleEmbed sampleIndex (.ok "irrelevant")
        (fun _ => .ok sampleNoWebVerdict) (fun _ => .error "fetch failed") "q" 3 = .ok rFail
      ∧ retrieveContext true false sampleEmbed sampleIndex (.ok "irrelevant")
          (fun _ => .ok sampleNoWebVerdict) sampleWeb "q" 3 = .ok rOk
      ∧ rFail.webContext = some ""
      ∧ rFail.localContext = rOk.localContext
      ∧ rFail.localContext = some (localJoin [sampleChunk]) :=
  webFailure_degrades false sampleEmbed sampleIndex (.ok "irrelevant")
    (fun _ => .ok sampleNoWebVerdict) sampleWeb "fetch failed" "q" 3 [sampleChunk] rfl

/-- C5 counterexample: a verdict whose `suggested_search_query` is present
but equal to `""` does NOT get its suggested query passed to web search —
the original query `"original question"` is passed instead, refuting
"the query passed to web search is the suggestedQuery of the verdict when
that field is present". -/
theorem searchQuery_presence_counterexample :
    resultSearchQuery (retrieveContext true false sampleEmbed sampleIndex
        (.ok "irrelevant") (fun _ => .ok emptySuggestVerdict) sampleWeb
        "original question" 3)
      = some "original question"
    ∧ emptySuggestVerdict.suggested_search_query = some ""
    ∧ ("original question" : String) ≠ "" := by
  refine ⟨rfl, rfl, by decide⟩

/-- C5 amended: the query passed to web search is the suggested query of the verdict,
`suggested_search_query` when that field is present AND non-empty
(JavaScript-truthy); otherwise — absent, null, or the empty string — it is
the original user query, which is thus never silently dropped when no
usable suggestion exists. -/
theorem searchQuery_fallback (useQ : Bool) (embed : EmbedOracle)
    (tbl : IndexOracle) (llm : Except String String)
    (jp : String → Except String QualityVerdict) (web : WebSearchOracle)
    (query : String) (topK : Nat) (chunks : List Chunk) (v : QualityVerdict)
    (h : searchSimilarDocuments embed tbl query topK = .ok chunks)
    (hv : analyze useQ query chunks llm jp = v) :
    ∃ r, retrieveContext true useQ embed tbl llm jp web query topK = .ok r
      ∧ r.webResults.map (fun w => w.searchQuery) = some (searchQuerySpec v query) := by
  subst hv
  refine ⟨_, retrieveContext_enabled_eq useQ embed tbl llm jp web query topK chunks h, ?_⟩
  simp [chosenSearchQuery_eq_spec]

/-- Witness for C5 (amended) at concrete collaborators. -/
theorem searchQuery_fallback_witness :
    ∃ r, retrieveContext true false sampleEmbed sampleIndex (.ok "irrelevant")
        (fun _ => .ok sampleNoWebVerdict) sampleWeb "q" 3 = .ok r
      ∧ r.webResults.map (fun w => w.searchQuery)
          = some (searchQuerySpec sampleNoWebVerdict "q") :=
  searchQuery_fallback false sampleEmbed sampleIndex (.ok "irrelevant")
    (fun _ => .ok sampleNoWebVerdict) sampleWeb "q" 3 [sampleChunk]
    sampleNoWebVerdict rfl rfl

/-- C6: only a retrieval failure (embedding call or vector-index search)
propagates out of `retrieveContext`, and it propagates unchanged; on
successful local retrieval the call returns a context for every analyzer
and web oracle (including failing ones); and every error it ever returns
is a retrieval error. -/
theorem retrieveContext_propagation (enable useQ : Bool) (embed : EmbedOracle)
    (tbl : IndexOracle) (llm : Except String String)
    (jp : String → Except String QualityVerdict) (web : WebSearchOracle)
    (query : String) (topK : Nat) :
    (∀ e, searchSimilarDocuments embed tbl query topK = .error e →
       retrieveContext enable useQ embed tbl llm jp web query topK = .error e)
    ∧ (∀ chunks, searchSimilarDocuments embed tbl query topK = .ok chunks →
       ∃ r, retrieveContext enable useQ embed tbl llm jp web query topK = .ok r)
    ∧ (∀ e, retrieveContext enable useQ embed tbl llm jp web query topK = .error e →
       searchSimilarDocuments embed tbl query topK = .error e) := by
  have h1 : ∀ e, searchSimilarDocuments embed tbl query topK = .error e →
      retrieveContext enable useQ embed tbl llm jp web query topK = .error e := by
    intro e he
    simp [retrieveContext, he]
  have h2 : ∀ chunks, searchSimilarDocuments embed tbl query topK = .ok chunks →
      ∃ r, retrieveContext enable useQ embed tbl llm jp web query topK = .ok r := by
    intro chunks hc
    cases enable
    · exact ⟨_, retrieveContext_disabled_eq useQ embed tbl llm jp web query topK chunks hc⟩
    · exact ⟨_, retrieveContext_enabled_eq useQ embed tbl llm jp web query topK chunks hc⟩
  refine ⟨h1, h2, ?_⟩
  intro e he
  cases hs : searchSimilarDocuments embed tbl query topK with
  | error e₂ =>
      have h3 := h1 e₂ hs
      rw [h3] at he
      injection he with he2
      rw [he2]
  | ok chunks =>
      obtain ⟨r, hr⟩ := h2 chunks hs
      rw [hr] at he
      exact absurd he (by simp)

/-- Witness for C6: a failing embedding service propagates its error. -/
theorem retrieveContext_propagation_witness :
    retrieveContext true false (fun _ => .error "embedding down") sampleIndex
      (.ok "irrelevant") (fun _ => .ok sampleNoWebVerdict) sampleWeb "q" 3
      = .error "embedding down" :=
  (retrieveContext_propagation true false (fun _ => .error "embedding down")
      sampleIndex (.ok "irrelevant") (fun _ => .ok sampleNoWebVerdict)
      sampleWeb "q" 3).1 "embedding down" rfl

/-- C10: a verdict whose `suggested_search_query` is the empty string (not
only null/absent) falls back to the original user query, because the
fallback tests truthiness; consequently the web search query is never
empty when the user query is non-empty. -/
theorem emptySuggestion_falls_back (useQ : Bool) (embed : EmbedOracle)
    (tbl : IndexOracle) (llm : Except String String)
    (jp : String → Except String QualityVerdict) (web : WebSearchOracle)
    (query : String) (topK : Nat) (chunks : List Chunk) (v : QualityVerdict)
    (h : searchSimilarDocuments embed tbl query topK = .ok chunks)
    (hv : analyze useQ query chunks llm jp = v) :
    (v.suggested_search_query = some "" →
      ∃ r, retrieveContext true useQ embed tbl llm jp web query topK = .ok r
        ∧ r.webResults = some ⟨query, getSearchContext web query 3⟩)
    ∧ (query ≠ "" →
      ∃ r, retrieveContext true useQ embed tbl llm jp web query topK = .ok r
        ∧ ∀ w, r.webResults = some w → w.searchQuery ≠ "") := by
  subst hv
  have hFalseEmpty : optTruthy (some "") = false := by decide
  constructor
  · intro hempty
    refine ⟨_, retrieveContext_enabled_eq useQ embed tbl llm jp web query topK chunks h, ?_⟩
    have hq2 : chosenSearchQuery (analyze useQ query chunks llm jp) query = query := by
      unfold chosenSearchQuery
      rw [hempty, hFalseEmpty]
      simp
    rw [hq2]
  · intro hq
    refine ⟨_, retrieveContext_enabled_eq useQ embed tbl llm jp web query topK chunks h, ?_⟩
    intro w hw
    simp only [Option.some.injEq] at hw
    rw [← hw]
    show chosenSearchQuery (analyze useQ query chunks llm jp) query ≠ ""
    unfold chosenSearchQuery
    cases hx : (analyze useQ query chunks llm jp).suggested_search_query with
    | none => simpa [optTruthy] using hq
    | some s =>
        by_cases hs : s = ""
        · subst hs
          rw [hFalseEmpty]
          simpa using hq
        · have hse : s.isEmpty = false := by
            rcases hb : s.isEmpty with _ | _
            · rfl
            · exact absurd ((String.isEmpty_iff s).mp hb) hs
          have ht : optTruthy (some s) = true := by
            simp [optTruthy, hse]
          rw [ht]
          simpa using hs

/-- Witness for C10: suggested query `""`, user query `"latest news"` —
the web search receives `"latest news"`. -/
theorem emptySuggestion_falls_back_witness :
    ∃ r, retrieveContext true false sampleEmbed sampleIndex (.ok "irrelevant")
        (fun _ => .ok emptySuggestVerdict) sampleWeb "latest news" 3 = .ok r
      ∧ r.webResults = some ⟨"latest news", getSearchContext sampleWeb "latest news" 3⟩ :=
  (emptySuggestion_falls_back false sampleEmbed sampleIndex (.ok "irrelevant")
      (fun _ => .ok emptySuggestVerdict) sampleWeb "latest news" 3 [sampleChunk]
      emptySuggestVerdict rfl rfl).1 rfl

/-- C7: the web section is assembled in the fixed order featured snippet
(when a truthy snippet text was fetched), then knowledge panel (when a
truthy panel text was fetched), then the numbered web results, the `i`-th
formatted as `[Web Source i+1: title] / URL: url / Content: snippet` and
joined by the separator; and the fused context places the local section —
the chunk texts joined by blank-line separators in retrieval rank order —
above the web section. -/
theorem fusion_layout :
    (∀ (web : WebSearchOracle) (query : String) (n : Nat),
      getSearchContext web query n =
        (if optTruthy (getFeaturedSnippet web query) then
           "=== FEATURED SNIPPET ===\n" ++ (getFeaturedSnippet web query).getD "" ++ "\n\n"
         else "")
        ++ (if optTruthy (getKnowledgeGraph web query) then
           "=== KNOWLEDGE GRAPH ===\n" ++ (getKnowledgeGraph web query).getD "" ++ "\n\n"
         else "")
        ++ (if 0 < (performSearch web query n).length then
           "=== SEARCH RESULTS ===\n\n" ++ String.intercalate "\n\n---\n\n"
             ((List.range (performSearch web query n).length).map
               (fun i => webSourceLine i ((performSearch web query n).getD i default)))
         else ""))
    ∧ (∀ (useQ : Bool) (embed : EmbedOracle) (tbl : IndexOracle)
        (llm : Except String String) (jp : String → Except String QualityVerdict)
        (web : WebSearchOracle) (query : String) (topK : Nat) (chunks : List Chunk),
        searchSimilarDocuments embed tbl query topK = .ok chunks →
        ∃ r wc, retrieveContext true useQ embed tbl llm jp web query topK = .ok r
          ∧ r.localContext
              = some (String.intercalate "\n\n" (chunks.map (fun c => c.text.getD "")))
          ∧ r.webContext = some wc
          ∧ r.context = "=== LOCAL DOCUMENT CONTEXT ===\n\n"
              ++ String.intercalate "\n\n" (chunks.map (fun c => c.text.getD ""))
              ++ "\n\n=== WEB SEARCH CONTEXT (Additional Information) ===\n\n" ++ wc) := by
  constructor
  · intro web query n
    have hm1 : ∀ x : String, "\n\n" ++ ("=== KNOWLEDGE GRAPH ===\n" ++ x)
        = "\n\n=== KNOWLEDGE GRAPH ===\n" ++ x := fun x => by
      rw [← String.append_assoc]
      rfl
    have hm2 : ∀ x : String, "\n\n" ++ ("=== SEARCH RESULTS ===\n\n" ++ x)
        = "\n\n=== SEARCH RESULTS ===\n\n" ++ x := fun x => by
      rw [← String.append_assoc]
      rfl
    simp only [getSearchContext, comprehensiveSearch]
    rw [webFormatParts_eq]
    simp only [Nat.zero_add]
    by_cases h1 : optTruthy (getFeaturedSnippet web query) <;>
      by_cases h2 : optTruthy (getKnowledgeGraph web query) <;>
      by_cases h3 : 0 < (performSearch web query n).length <;>
      simp [h1, h2, h3, String.append_assoc, hm1, hm2]
  · intro useQ embed tbl llm jp web query topK chunks h
    exact ⟨_, _, retrieveContext_enabled_eq useQ embed tbl llm jp web query topK chunks h,
      rfl, rfl, rfl⟩

/-- Witness for C7 (the fused-placement part, whose hypothesis is the
successful local retrieval) at concrete collaborators. -/
theorem fusion_layout_witness :
    ∃ r wc, retrieveContext true false sampleEmbed sampleIndex (.ok "irrelevant")
        (fun _ => .ok sampleNoWebVerdict) sampleWeb "q" 3 = .ok r
      ∧ r.localContext
          = some (String.intercalate "\n\n" ([sampleChunk].map (fun c => c.text.getD "")))
      ∧ r.webContext = some wc
      ∧ r.context = "=== LOCAL DOCUMENT CONTEXT ===\n\n"
          ++ String.intercalate "\n\n" ([sampleChunk].map (fun c => c.text.getD ""))
          ++ "\n\n=== WEB SEARCH CONTEXT (Additional Information) ===\n\n" ++ wc :=
  fusion_layout.2 false sampleEmbed sampleIndex (.ok "irrelevant")
    (fun _ => .ok sampleNoWebVerdict) sampleWeb "q" 3 [sampleChunk] rfl

/-- The take-based sample index honours the ordered-search contract. -/
lemma sampleIndex_contract : indexContract [sampleChunk] sampleIndex := by
  intro v k res h
  simp only [sampleIndex, Except.ok.injEq] at h
  subst h
  refine ⟨by simp, ?_, ?_⟩
  · cases k with
    | zero => simp [sortedByDistance]
    | succ n => simp [sortedByDistance, List.take_succ_cons]
  · intro c hc2
    cases k with
    | zero => simp at hc2
    | succ n =>
        simp only [List.take_succ_cons, List.take_nil, List.mem_singleton] at hc2
        simp [hc2]

/-- C8: assuming the external vector index honours its ordered-search
contract over an index of `N` chunks, `searchSimilarDocuments` with
`1 ≤ topK ≤ N` returns exactly `topK` chunks sorted by non-decreasing
distance, closest first. -/
theorem searchSimilarDocuments_ranking (embed : EmbedOracle) (tbl : IndexOracle)
    (index : List Chunk) (query : String) (topK : Nat) (v : List Int)
    (res : List Chunk)
    (hc : indexContract index tbl)
    (he : embed query = .ok v)
    (hres : tbl v topK = .ok res)
    (h1 : 1 ≤ topK) (h2 : topK ≤ index.length) :
    searchSimilarDocuments embed tbl query topK = .ok res
    ∧ res.length = topK ∧ sortedByDistance res := by
  obtain ⟨hlen, hsort, _⟩ := hc v topK res hres
  refine ⟨?_, ?_, hsort⟩
  · simp [searchSimilarDocuments, generateQueryEmbedding, he, hres]
  · rw [hlen]
    omega

/-- Witness for C8 at a one-chunk index and `topK = 1`. -/
theorem searchSimilarDocuments_ranking_witness :
    searchSimilarDocuments sampleEmbed sampleIndex "q" 1 = .ok [sampleChunk]
    ∧ ([sampleChunk] : List Chunk).length = 1 ∧ sortedByDistance [sampleChunk] :=
  searchSimilarDocuments_ranking sampleEmbed sampleIndex [sampleChunk] "q" 1
    [1, 2, 3] [sampleChunk] sampleIndex_contract rfl rfl (by decide) (by decide)

end CRag
